import Mathlib

/-!
Shallow embedding of the core logic of `station_climo_flight_rules.py`:
ceiling resolution (`find_ceiling`), flight-rule classification
(`calculate_flight_rules`) and dataset combination (`combine_dataframes`),
together with theorems settling the specification claims about them.

Modelling conventions:
* A pandas column value that may be `NaN`/missing is modelled as an `Option`.
  `pd.to_numeric(x, errors='coerce')` on a sky-layer height is modelled by a
  field of type `Option Int`: `some n` when the raw height parses to the
  number `n`, `none` when it is missing or unparseable (`NaN`).
* Visibility (`vsby`) is a real-valued column; it is modelled as `Option ℚ`
  (`none` is the missing-value marker `M`, coerced to `NaN` by
  `pd.to_numeric(..., errors='coerce')` in `calculate_flight_rules`).
* A pandas comparison between a column and a scalar yields `False` on `NaN`;
  the helpers `naGe`, `naLe`, `naLt` mirror that.
-/

/-- One per-timestamp row of a station dataframe, restricted to the columns
the core logic reads: the three sky-cover codes `skyc1..skyc3`
(`none` models a missing/absent layer), the three sky-layer heights
`skyl1..skyl3` after numeric coercion (`none` models an unparseable or
missing height), and visibility `vsby` in statute miles
(`none` models the missing marker). -/
structure Obs where
  skyc1 : Option String
  skyc2 : Option String
  skyc3 : Option String
  skyl1 : Option Int
  skyl2 : Option Int
  skyl3 : Option Int
  vsby : Option ℚ
  deriving Repr, DecidableEq

/-- The test on line 69 of the source: a sky-cover code forms a ceiling iff
it equals `"BKN"`, `"OVC"` or `"VV"`. A missing cover value (pandas `NaN`)
compares unequal to every string, so it never matches. -/
def isCeilingCover : Option String → Bool
  | some s => s == "BKN" || s == "OVC" || s == "VV"
  | none => false

/-- The loop body of `find_ceiling` (lines 66-77) for one row: scan
`skyc1, skyc2, skyc3` in order; at the first ceiling-forming cover, the
result is `pd.to_numeric(height, errors='coerce')` (so `none` when the
height is unparseable); if no layer matches, the default `99999`. -/
def findCeilingScan (o : Obs) : Option Int :=
  if isCeilingCover o.skyc1 then o.skyl1
  else if isCeilingCover o.skyc2 then o.skyl2
  else if isCeilingCover o.skyc3 then o.skyl3
  else some 99999

/-- `find_ceiling` for one row: the scan result, then line 80
(`pd.to_numeric(...).fillna(99999).astype(int)`) replaces a `NaN` ceiling by
`99999` and fixes the integer type. -/
def find_ceiling (o : Obs) : Int :=
  (findCeilingScan o).getD 99999

/-- Pandas semantics of `col >= x` for a possibly-`NaN` value: `false` when
the value is missing. -/
def naGe (v : Option ℚ) (x : ℚ) : Bool :=
  match v with
  | some q => decide (x ≤ q)
  | none => false

/-- Pandas semantics of `col <= x` for a possibly-`NaN` value: `false` when
the value is missing. -/
def naLe (v : Option ℚ) (x : ℚ) : Bool :=
  match v with
  | some q => decide (q ≤ x)
  | none => false

/-- Pandas semantics of `col < x` for a possibly-`NaN` value: `false` when
the value is missing. -/
def naLt (v : Option ℚ) (x : ℚ) : Bool :=
  match v with
  | some q => decide (q < x)
  | none => false

/-- The four boolean flight-category columns produced by
`calculate_flight_rules`. -/
structure FlightRules where
  VFR : Bool
  MVFR : Bool
  IFR : Bool
  LIFR : Bool
  deriving Repr, DecidableEq

/-- `calculate_flight_rules` (lines 88-105) for one row. The ceiling `c` is
an integer: `find_ceiling` always leaves an integer ceiling (line 80), so
the re-coercion on line 90 is the identity here. Visibility `v` may be
missing (`NaN` after the coercion on line 91), and every comparison against
a missing visibility is `false`. Each disjunct below mirrors one
parenthesised conjunction of the source, in order. -/
def calculate_flight_rules (c : Int) (v : Option ℚ) : FlightRules where
  VFR := decide (2500 ≤ c) && naGe v 6
  MVFR :=
    (decide (1000 ≤ c) && decide (c < 2500) && naGe v 3 && naLe v 5) ||
    (decide (1000 ≤ c) && decide (c < 2500) && naGe v 3) ||
    (decide (2500 ≤ c) && naGe v 3 && naLe v 5)
  IFR :=
    (decide (400 ≤ c) && decide (c < 1000) && naGe v 1 && naLt v 3) ||
    (decide (400 ≤ c) && decide (c < 1000) && naGe v 1) ||
    (decide (1000 ≤ c) && naGe v 1 && naLt v 3)
  LIFR := decide (c < 400) || naLt v 1

/-- `combine_dataframes` (lines 253-261): tag the rows of `station_dfs[i]`
with `station_codes[i]` and concatenate. The zip truncates to the shorter
list, which matches the Python indexing whenever `station_dfs` is no longer
than `station_codes` (the only way the `__main__` driver calls it). The row
type is a parameter because `pd.concat` is column-agnostic. -/
def combine_dataframes {α : Type} (station_dfs : List (List α))
    (station_codes : List String) : List (String × α) :=
  (station_codes.zip station_dfs).flatMap (fun p => p.2.map (fun o => (p.1, o)))

/-- The per-station loop of `__main__` (lines 276-307): each station's
fetch/parse either yields a dataset or raises, and on an exception the
station is skipped — nothing is appended to `station_dfs`. `fetch_results`
is aligned with the station-code list position by position; the surviving
datasets keep their relative order. -/
def main_station_dfs {α : Type} (fetch_results : List (Option (List α))) :
    List (List α) :=
  fetch_results.filterMap id

/-- Line 310 of `__main__`: combine the surviving per-station datasets with
the full, unfiltered `station_codes` list. -/
def main_combined {α : Type} (station_codes : List String)
    (fetch_results : List (Option (List α))) : List (String × α) :=
  combine_dataframes (main_station_dfs fetch_results) station_codes

/-- Characterisation of the `VFR` column on a present (non-`NaN`)
visibility. -/
lemma vfr_some_iff (c : Int) (q : ℚ) :
    (calculate_flight_rules c (some q)).VFR = true ↔ 2500 ≤ c ∧ 6 ≤ q := by
  simp [calculate_flight_rules, naGe]

/-- Characterisation of the `MVFR` column on a present visibility: the three
source disjuncts collapse to the refined two-band policy, because the first
disjunct is subsumed by the second. -/
lemma mvfr_some_iff (c : Int) (q : ℚ) :
    (calculate_flight_rules c (some q)).MVFR = true ↔
      (1000 ≤ c ∧ c < 2500 ∧ 3 ≤ q) ∨ (2500 ≤ c ∧ 3 ≤ q ∧ q ≤ 5) := by
  simp only [calculate_flight_rules, naGe, naLe, Bool.or_eq_true, Bool.and_eq_true,
    decide_eq_true_eq]
  constructor
  · rintro ((⟨⟨⟨h1, h2⟩, h3⟩, h4⟩ | ⟨⟨h1, h2⟩, h3⟩) | ⟨⟨h1, h2⟩, h3⟩)
    · exact Or.inl ⟨h1, h2, h3⟩
    · exact Or.inl ⟨h1, h2, h3⟩
    · exact Or.inr ⟨h1, h2, h3⟩
  · rintro (⟨h1, h2, h3⟩ | ⟨h1, h2, h3⟩)
    · exact Or.inl (Or.inr ⟨⟨h1, h2⟩, h3⟩)
    · exact Or.inr ⟨⟨h1, h2⟩, h3⟩

/-- Characterisation of the `IFR` column on a present visibility: the three
source disjuncts collapse to the refined two-band policy, because the first
disjunct is subsumed by the second. -/
lemma ifr_some_iff (c : Int) (q : ℚ) :
    (calculate_flight_rules c (some q)).IFR = true ↔
      (400 ≤ c ∧ c < 1000 ∧ 1 ≤ q) ∨ (1000 ≤ c ∧ 1 ≤ q ∧ q < 3) := by
  simp only [calculate_flight_rules, naGe, naLt, Bool.or_eq_true, Bool.and_eq_true,
    decide_eq_true_eq]
  constructor
  · rintro ((⟨⟨⟨h1, h2⟩, h3⟩, h4⟩ | ⟨⟨h1, h2⟩, h3⟩) | ⟨⟨h1, h2⟩, h3⟩)
    · exact Or.inl ⟨h1, h2, h3⟩
    · exact Or.inl ⟨h1, h2, h3⟩
    · exact Or.inr ⟨h1, h2, h3⟩
  · rintro (⟨h1, h2, h3⟩ | ⟨h1, h2, h3⟩)
    · exact Or.inl (Or.inr ⟨⟨h1, h2⟩, h3⟩)
    · exact Or.inr ⟨⟨h1, h2⟩, h3⟩

/-- Characterisation of the `LIFR` column on a present visibility. -/
lemma lifr_some_iff (c : Int) (q : ℚ) :
    (calculate_flight_rules c (some q)).LIFR = true ↔ c < 400 ∨ q < 1 := by
  simp [calculate_flight_rules, naLt]

/-- C1: for every integer ceiling and non-negative numeric visibility, the
classifier sets the flags exactly as the refined policy: VFR iff
ceiling ≥ 2500 and visibility ≥ 6; MVFR iff (1000 ≤ ceiling < 2500 and
visibility ≥ 3) or (ceiling ≥ 2500 and 3 ≤ visibility ≤ 5); IFR iff
(400 ≤ ceiling < 1000 and visibility ≥ 1) or (ceiling ≥ 1000 and
1 ≤ visibility < 3); LIFR iff ceiling < 400 or visibility < 1. -/
theorem calculate_flight_rules_matches_refined_policy (c : Int) (v : ℚ)
    (hv : 0 ≤ v) :
    ((calculate_flight_rules c (some v)).VFR = true ↔ (2500 ≤ c ∧ 6 ≤ v)) ∧
    ((calculate_flight_rules c (some v)).MVFR = true ↔
      ((1000 ≤ c ∧ c < 2500 ∧ 3 ≤ v) ∨ (2500 ≤ c ∧ 3 ≤ v ∧ v ≤ 5))) ∧
    ((calculate_flight_rules c (some v)).IFR = true ↔
      ((400 ≤ c ∧ c < 1000 ∧ 1 ≤ v) ∨ (1000 ≤ c ∧ 1 ≤ v ∧ v < 3))) ∧
    ((calculate_flight_rules c (some v)).LIFR = true ↔ (c < 400 ∨ v < 1)) :=
  ⟨vfr_some_iff c v, mvfr_some_iff c v, ifr_some_iff c v, lifr_some_iff c v⟩

/-- Witness for C1 at ceiling 2000, visibility 4. -/
theorem calculate_flight_rules_matches_refined_policy_witness :
    ((calculate_flight_rules 2000 (some 4)).VFR = true ↔
      (2500 ≤ (2000 : Int) ∧ (6 : ℚ) ≤ 4)) ∧
    ((calculate_flight_rules 2000 (some 4)).MVFR = true ↔
      ((1000 ≤ (2000 : Int) ∧ (2000 : Int) < 2500 ∧ (3 : ℚ) ≤ 4) ∨
        (2500 ≤ (2000 : Int) ∧ (3 : ℚ) ≤ 4 ∧ (4 : ℚ) ≤ 5))) ∧
    ((calculate_flight_rules 2000 (some 4)).IFR = true ↔
      ((400 ≤ (2000 : Int) ∧ (2000 : Int) < 1000 ∧ (1 : ℚ) ≤ 4) ∨
        (1000 ≤ (2000 : Int) ∧ (1 : ℚ) ≤ 4 ∧ (4 : ℚ) < 3))) ∧
    ((calculate_flight_rules 2000 (some 4)).LIFR = true ↔
      ((2000 : Int) < 400 ∨ (4 : ℚ) < 1)) :=
  calculate_flight_rules_matches_refined_policy 2000 4 (by norm_num)

/-- C2 counterexample: with missing visibility the flags are not all false —
at ceiling 300 the LIFR column is still true, because
`df['LIFR'] = (df['ceiling'] < 400) | (df['vsby'] < 1)` fires on the ceiling
disjunct alone. -/
theorem missing_visibility_not_all_false :
    (calculate_flight_rules 300 none).LIFR = true := by decide

/-- C2 amended: for every ceiling, an observation with missing visibility
gets VFR, MVFR and IFR false, and LIFR true exactly when the ceiling is
below 400 (every comparison against the missing visibility is false, but
LIFR can still fire on its ceiling disjunct). -/
theorem missing_visibility_flags (c : Int) :
    (calculate_flight_rules c none).VFR = false ∧
    (calculate_flight_rules c none).MVFR = false ∧
    (calculate_flight_rules c none).IFR = false ∧
    ((calculate_flight_rules c none).LIFR = true ↔ c < 400) := by
  simp [calculate_flight_rules, naGe, naLe, naLt]

/-- C3: the layer scan runs in order 1→3 and the first ceiling-forming
layer wins: whenever layer 1 has cover-code `"OVC"` and height 800, the
resolved ceiling is 800, whatever layers 2 and 3 contain. -/
theorem layer1_ovc_800_ceiling (o : Obs) (h1 : o.skyc1 = some "OVC")
    (h2 : o.skyl1 = some 800) : find_ceiling o = 800 := by
  simp [find_ceiling, findCeilingScan, isCeilingCover, h1, h2]

/-- Witness for C3: layers 2 and 3 hold a scattered layer and an even lower
broken layer, and the ceiling is still layer 1's 800. -/
theorem layer1_ovc_800_ceiling_witness :
    find_ceiling ⟨some "OVC", some "SCT", some "BKN",
      some 800, some 10000, some 200, some 10⟩ = 800 :=
  layer1_ovc_800_ceiling _ rfl rfl

/-- C4: when no layer has a ceiling-forming cover-code (BKN, OVC or VV
under the refined policy), the resolved ceiling is the sentinel 99999; and
an absent layer (`none`) is never ceiling-forming. -/
theorem no_ceiling_cover_sentinel (o : Obs)
    (h1 : isCeilingCover o.skyc1 = false)
    (h2 : isCeilingCover o.skyc2 = false)
    (h3 : isCeilingCover o.skyc3 = false) :
    find_ceiling o = 99999 ∧ isCeilingCover none = false := by
  refine ⟨?_, by simp [isCeilingCover]⟩
  simp [find_ceiling, findCeilingScan, h1, h2, h3]

/-- Witness for C4: a few/scattered sky with the third layer absent. -/
theorem no_ceiling_cover_sentinel_witness :
    find_ceiling ⟨some "FEW", some "SCT", none,
      some 1200, some 2500, none, some 10⟩ = 99999 ∧
    isCeilingCover none = false :=
  no_ceiling_cover_sentinel _ (by decide) (by decide) (by decide)

/-- C5: if the first ceiling-forming layer's height is unparseable (numeric
coercion yields `NaN`, modelled `none`), the resolved ceiling falls back to
the sentinel 99999 instead of failing — one conjunct per position at which
the first match can occur. -/
theorem unparseable_height_sentinel (o : Obs) :
    (isCeilingCover o.skyc1 = true → o.skyl1 = none →
      find_ceiling o = 99999) ∧
    (isCeilingCover o.skyc1 = false → isCeilingCover o.skyc2 = true →
      o.skyl2 = none → find_ceiling o = 99999) ∧
    (isCeilingCover o.skyc1 = false → isCeilingCover o.skyc2 = false →
      isCeilingCover o.skyc3 = true → o.skyl3 = none →
      find_ceiling o = 99999) := by
  refine ⟨fun h1 hl => ?_, fun h1 h2 hl => ?_, fun h1 h2 h3 hl => ?_⟩ <;>
    simp [find_ceiling, findCeilingScan, h1, hl] <;>
    simp_all [find_ceiling, findCeilingScan]

/-- Witness for C5: an overcast layer 1 whose height failed to parse. -/
theorem unparseable_height_sentinel_witness :
    find_ceiling ⟨some "OVC", none, none, none, some 3000, none, some 10⟩
      = 99999 :=
  (unparseable_height_sentinel _).1 (by decide) rfl

/-- C6: ceiling resolution is total — for every observation it returns a
defined integer, which is moreover either the sentinel 99999 or one of the
successfully parsed layer heights. -/
theorem find_ceiling_total (o : Obs) :
    ∃ n : Int, find_ceiling o = n ∧
      (n = 99999 ∨ o.skyl1 = some n ∨ o.skyl2 = some n ∨ o.skyl3 = some n) := by
  refine ⟨find_ceiling o, rfl, ?_⟩
  simp only [find_ceiling, findCeilingScan]
  split_ifs with h1 h2 h3
  · cases h : o.skyl1 <;> simp [h]
  · cases h : o.skyl2 <;> simp [h]
  · cases h : o.skyl3 <;> simp [h]
  · simp

/-- C7: the literal boundary scenarios of the spec, evaluated on the
classifier: (99999, 10) is VFR only; (2000, 4) is MVFR; (600, 2) is IFR;
(300, 10) is LIFR; (99999, 0.5) is LIFR and not VFR; (2500, 6) is VFR. -/
theorem boundary_scenarios :
    calculate_flight_rules 99999 (some 10) = ⟨true, false, false, false⟩ ∧
    (calculate_flight_rules 2000 (some 4)).MVFR = true ∧
    (calculate_flight_rules 600 (some 2)).IFR = true ∧
    (calculate_flight_rules 300 (some 10)).LIFR = true ∧
    ((calculate_flight_rules 99999 (some (1/2))).LIFR = true ∧
      (calculate_flight_rules 99999 (some (1/2))).VFR = false) ∧
    (calculate_flight_rules 2500 (some 6)).VFR = true := by
  refine ⟨by decide, by decide, by decide, by decide, ⟨?_, ?_⟩, by decide⟩ <;>
    norm_num [calculate_flight_rules, naGe, naLt]

/-- C8: failing scenario for station tagging. The first station's fetch
fails so its dataset is skipped, yet `combine_dataframes` still tags the
surviving datasets positionally against the full station-code list: the
single observation fetched for the second station `"CYYC"` comes out tagged
with the first station's code `"CYEG"`. -/
theorem combine_mistags_after_skip :
    main_combined ["CYEG", "CYYC"] [none, some [(0 : Nat)]] = [("CYEG", 0)] ∧
      "CYEG" ≠ "CYYC" := by
  exact ⟨rfl, by decide⟩

/-- C9: the four category columns are pairwise mutually exclusive — for
every integer ceiling and every (present or missing) visibility, no two of
VFR, MVFR, IFR, LIFR are simultaneously true. -/
theorem flight_flags_pairwise_exclusive (c : Int) (v : Option ℚ) :
    ¬((calculate_flight_rules c v).VFR = true ∧
      (calculate_flight_rules c v).MVFR = true) ∧
    ¬((calculate_flight_rules c v).VFR = true ∧
      (calculate_flight_rules c v).IFR = true) ∧
    ¬((calculate_flight_rules c v).VFR = true ∧
      (calculate_flight_rules c v).LIFR = true) ∧
    ¬((calculate_flight_rules c v).MVFR = true ∧
      (calculate_flight_rules c v).IFR = true) ∧
    ¬((calculate_flight_rules c v).MVFR = true ∧
      (calculate_flight_rules c v).LIFR = true) ∧
    ¬((calculate_flight_rules c v).IFR = true ∧
      (calculate_flight_rules c v).LIFR = true) := by
  cases v with
  | none => simp [calculate_flight_rules, naGe, naLe, naLt]
  | some q =>
    simp only [vfr_some_iff, mvfr_some_iff, ifr_some_iff, lifr_some_iff]
    refine ⟨?_, ?_, ?_, ?_, ?_, ?_⟩
    · rintro ⟨⟨hc, hv⟩, ⟨h1, h2, h3⟩ | ⟨h1, h2, h3⟩⟩
      · omega
      · linarith
    · rintro ⟨⟨hc, hv⟩, ⟨h1, h2, h3⟩ | ⟨h1, h2, h3⟩⟩
      · omega
      · linarith
    · rintro ⟨⟨hc, hv⟩, h | h⟩
      · omega
      · linarith
    · rintro ⟨⟨h1, h2, h3⟩ | ⟨h1, h2, h3⟩, ⟨g1, g2, g3⟩ | ⟨g1, g2, g3⟩⟩ <;>
        first | omega | linarith
    · rintro ⟨⟨h1, h2, h3⟩ | ⟨h1, h2, h3⟩, g | g⟩ <;> first | omega | linarith
    · rintro ⟨⟨h1, h2, h3⟩ | ⟨h1, h2, h3⟩, g | g⟩ <;> first | omega | linarith

/-- C10: the four categories do not cover every well-formed numeric input:
at ceiling 3000 ft and visibility 5.5 mi all four flags are false. -/
theorem flags_not_exhaustive :
    calculate_flight_rules 3000 (some (11/2)) = ⟨false, false, false, false⟩ := by
  norm_num [calculate_flight_rules, naGe, naLe, naLt, FlightRules.mk.injEq]
